import Mathlib

/-!
Shallow embedding of the `aom-rs` wrapper crate (an FFI binding layer
around the libaom AV1 encoder) for checking its natural-language
specification.

Conventions of the embedding:
* Native byte memory is a function `Mem : Nat → Nat`; a native pointer is
  an address (`Nat`); `ptr::copy_nonoverlapping(src, dst, n)` followed by
  `set_len n` on a fresh vector yields the list of the `n` bytes starting
  at `src`, written `readBytes`.
* Rust panics (`panic!`, `unwrap` on `None`, `unimplemented!`, index out
  of bounds) are modelled by `Except String`, the string being the panic
  message.
* Calls into the native library (whose code is not part of this
  repository) are modelled by an oracle environment supplying their
  return values, and every native call an operation performs is recorded
  in a trace, so that "calls X" / "never calls X" is provable.
* Machine integers are `Nat`/`Int`; `as u32` / `as i32` casts from
  `usize` reduce modulo `2^32` where the source performs them.
-/

namespace AomRs

/-- Native byte-addressable memory: the byte stored at each address. -/
def Mem : Type := Nat → Nat

/-- `(List.range sz).map (fun i => mem (addr + i))`: the `sz` bytes starting
at address `addr`, exactly what `ptr::copy_nonoverlapping(addr, dst, sz)`
deposits into a fresh buffer `dst`. -/
def readBytes (mem : Mem) (addr sz : Nat) : List Nat :=
  (List.range sz).map (fun i => mem (addr + i))

theorem readBytes_length (mem : Mem) (addr sz : Nat) :
    (readBytes mem addr sz).length = sz := by
  simp [readBytes]

theorem readBytes_getElem? (mem : Mem) (addr sz i : Nat) (h : i < sz) :
    (readBytes mem addr sz)[i]? = some (mem (addr + i)) := by
  simp [readBytes, List.getElem?_map, List.getElem?_range h]

/-- `aom_fixed_buf_t`: a native fixed-size buffer, a pointer `buf` plus a
size `sz` (field names as in the C struct). -/
structure AomFixedBuf where
  buf : Nat
  sz : Nat
deriving DecidableEq, Repr

/-- `utils::to_buffer`: `Vec::with_capacity(buf.sz)`, then
`ptr::copy_nonoverlapping(buf.buf, v.as_mut_ptr(), buf.sz)` and
`v.set_len(buf.sz)` — the `sz` bytes at `buf`. -/
def to_buffer (mem : Mem) (buf : AomFixedBuf) : List Nat :=
  readBytes mem buf.buf buf.sz

/-! ### Native packet layout (`aom_codec_cx_pkt`)

The five packet-kind constants come from libaom's
`enum aom_codec_cx_pkt_kind` (`aom_encoder.h`): the first four are
consecutive from 0 and `AOM_CODEC_CUSTOM_PKT = 256`. -/

def AOM_CODEC_CX_FRAME_PKT : Nat := 0
def AOM_CODEC_STATS_PKT : Nat := 1
def AOM_CODEC_FPMB_STATS_PKT : Nat := 2
def AOM_CODEC_PSNR_PKT : Nat := 3
def AOM_CODEC_CUSTOM_PKT : Nat := 256

/-- `AOM_FRAME_IS_KEY` flag bit (libaom `aom_encoder.h`). -/
def AOM_FRAME_IS_KEY : Nat := 1

/-- `aom_codec_cx_pkt__bindgen_ty_1__bindgen_ty_1`: the `frame` member of
the packet union — buffer pointer, size, presentation timestamp, duration,
flags, partition id. -/
structure FrameData where
  buf : Nat
  sz : Nat
  pts : Int
  duration : Nat
  flags : Nat
  partition_id : Int
deriving DecidableEq, Repr

/-- `aom_codec_cx_pkt__bindgen_ty_1_aom_psnr_pkt`: the `psnr` member of the
packet union.  The `double` entries are kept as uninterpreted 64-bit
patterns (`Nat`): the wrapper only copies them, never computes on them. -/
structure PsnrData where
  samples : Fin 4 → Nat
  psnr : Fin 4 → Nat
  sse : Fin 4 → Nat
  samples_hbd : Fin 4 → Nat
  sse_hbd : Fin 4 → Nat
  psnr_hbd : Fin 4 → Nat

/-- The union `aom_codec_cx_pkt__bindgen_ty_1` (`data`).  Every member is
present; the wrapper reads only the member matching the packet's kind. -/
structure PktData where
  frame : FrameData
  twopass_stats : AomFixedBuf
  raw : AomFixedBuf
  firstpass_mb_stats : AomFixedBuf
  psnr : PsnrData

/-- `aom_codec_cx_pkt`: a kind tag plus the data union. -/
structure AomCodecCxPkt where
  kind : Nat
  data : PktData

/-! ### `av_data` types used by the wrapper (external crate) -/

/-- `av_data::packet::TimeInfo` (the fields the wrapper touches or that
`Packet::with_capacity` zeroes). -/
structure TimeInfo where
  pts : Option Int
  dts : Option Int
  duration : Option Nat
deriving DecidableEq, Repr

def TimeInfo.default : TimeInfo := { pts := none, dts := none, duration := none }

/-- `av_data::packet::Packet`. -/
structure Packet where
  data : List Nat
  pos : Option Nat
  stream_index : Int
  t : TimeInfo
  is_key : Bool
  is_corrupted : Bool
deriving DecidableEq, Repr

/-- `Packet::with_capacity(sz)`: an empty packet (capacity is not part of
the observable state). -/
def Packet.with_capacity (_sz : Nat) : Packet :=
  { data := [], pos := none, stream_index := -1, t := TimeInfo.default,
    is_key := false, is_corrupted := false }

/-- `encoder::PSNR`: the owned PSNR result struct. -/
structure PSNR where
  samples : Fin 4 → Nat
  psnr : Fin 4 → Nat
  sse : Fin 4 → Nat
  samples_hbd : Fin 4 → Nat
  sse_hbd : Fin 4 → Nat
  psnr_hbd : Fin 4 → Nat

/-- `encoder::AOMPacket`: the tagged decode of the native packet union. -/
inductive AOMPacket where
  | Frame (p : Packet)
  | TwoPassStats (b : List Nat)
  | FirstPassMBStats (b : List Nat)
  | PSNR (p : PSNR)
  | Raw (b : List Nat)

/-- `AOMPacket::new`: match on `pkt.kind` in source order (frame, two-pass
stats, custom/raw, first-pass MB stats, PSNR), copying the corresponding
union member; any other kind panics with
"Invalid aom packet kind detected". -/
def AOMPacket.new (mem : Mem) (pkt : AomCodecCxPkt) : Except String AOMPacket :=
  if pkt.kind = AOM_CODEC_CX_FRAME_PKT then
    let f := pkt.data.frame
    let p := Packet.with_capacity f.sz
    let p := { p with data := readBytes mem f.buf f.sz }
    let p := { p with t := { p.t with pts := some f.pts } }
    let p := { p with is_key := f.flags &&& AOM_FRAME_IS_KEY ≠ 0 }
    .ok (.Frame p)
  else if pkt.kind = AOM_CODEC_STATS_PKT then
    .ok (.TwoPassStats (to_buffer mem pkt.data.twopass_stats))
  else if pkt.kind = AOM_CODEC_CUSTOM_PKT then
    .ok (.Raw (to_buffer mem pkt.data.raw))
  else if pkt.kind = AOM_CODEC_FPMB_STATS_PKT then
    .ok (.FirstPassMBStats (to_buffer mem pkt.data.firstpass_mb_stats))
  else if pkt.kind = AOM_CODEC_PSNR_PKT then
    let q := pkt.data.psnr
    .ok (.PSNR { samples := q.samples, psnr := q.psnr, sse := q.sse,
                 samples_hbd := q.samples_hbd, sse_hbd := q.sse_hbd,
                 psnr_hbd := q.psnr_hbd })
  else
    .error "Invalid aom packet kind detected"

/-! ### Configuration record and builder (`core/config.rs`)

Scalar field types of the native `aom_codec_enc_cfg` are modelled as
`Nat` (`u32` and C enums) and `Int` (`i32`); `aom_rational` and the two
fixed-size `i32` arrays keep their shape; `cfg_options_t` is a native
sub-record the wrapper only stores wholesale, modelled opaquely. -/

/-- `aom_rational`: numerator / denominator. -/
structure AomRational where
  num : Int
  den : Int
deriving DecidableEq, Repr

/-- `cfg_options_t`, modelled opaquely: the wrapper copies it wholesale
and never reads its fields. -/
structure CfgOptions where
  raw : Nat
deriving DecidableEq, Repr

/-- The native `aom_codec_enc_cfg` record: one field per setter of the
`AomCodecEncCfgTrait`, in declaration order. -/
structure AomCodecEncCfg where
  g_usage : Nat
  g_threads : Nat
  g_profile : Nat
  g_w : Nat
  g_h : Nat
  g_limit : Nat
  g_forced_max_frame_width : Nat
  g_forced_max_frame_height : Nat
  g_bit_depth : Nat
  g_input_bit_depth : Nat
  g_timebase : AomRational
  g_error_resilient : Nat
  g_pass : Nat
  g_lag_in_frames : Nat
  rc_dropframe_thresh : Nat
  rc_resize_mode : Nat
  rc_resize_denominator : Nat
  rc_resize_kf_denominator : Nat
  rc_superres_mode : Nat
  rc_superres_denominator : Nat
  rc_superres_kf_denominator : Nat
  rc_superres_qthresh : Nat
  rc_superres_kf_qthresh : Nat
  rc_end_usage : Nat
  rc_twopass_stats_in : AomFixedBuf
  rc_firstpass_mb_stats_in : AomFixedBuf
  rc_target_bitrate : Nat
  rc_min_quantizer : Nat
  rc_max_quantizer : Nat
  rc_undershoot_pct : Nat
  rc_overshoot_pct : Nat
  rc_buf_sz : Nat
  rc_buf_initial_sz : Nat
  rc_buf_optimal_sz : Nat
  rc_2pass_vbr_bias_pct : Nat
  rc_2pass_vbr_minsection_pct : Nat
  rc_2pass_vbr_maxsection_pct : Nat
  fwd_kf_enabled : Int
  kf_mode : Nat
  kf_min_dist : Nat
  kf_max_dist : Nat
  sframe_dist : Nat
  sframe_mode : Nat
  large_scale_tile : Nat
  monochrome : Nat
  full_still_picture_hdr : Nat
  save_as_annexb : Nat
  tile_width_count : Int
  tile_height_count : Int
  tile_widths : Fin 64 → Int
  tile_heights : Fin 64 → Int
  use_fixed_qp_offsets : Nat
  fixed_qp_offsets : Fin 5 → Int
  encoder_cfg : CfgOptions

/-- `AV1EncoderConfig`: wraps the native configuration record. -/
structure AV1EncoderConfig where
  enc_cfg : AomCodecEncCfg

/-- Setter `g_usage`: `self.enc_cfg.g_usage = value; self`. -/
def AV1EncoderConfig.g_usage (self : AV1EncoderConfig) (value : Nat) : AV1EncoderConfig :=
  { self with enc_cfg := { self.enc_cfg with g_usage := value } }

/-- Setter `g_threads`: `self.enc_cfg.g_threads = value; self`. -/
def AV1EncoderConfig.g_threads (self : AV1EncoderConfig) (value : Nat) : AV1EncoderConfig :=
  { self with enc_cfg := { self.enc_cfg with g_threads := value } }

/-- Setter `g_profile`: `self.enc_cfg.g_profile = value; self`. -/
def AV1EncoderConfig.g_profile (self : AV1EncoderConfig) (value : Nat) : AV1EncoderConfig :=
  { self with enc_cfg := { self.enc_cfg with g_profile := value } }

/-- Setter `g_w`: `self.enc_cfg.g_w = value; self`. -/
def AV1EncoderConfig.g_w (self : AV1EncoderConfig) (value : Nat) : AV1EncoderConfig :=
  { self with enc_cfg := { self.enc_cfg with g_w := value } }

/-- Setter `g_h`: `self.enc_cfg.g_h = value; self`. -/
def AV1EncoderConfig.g_h (self : AV1EncoderConfig) (value : Nat) : AV1EncoderConfig :=
  { self with enc_cfg := { self.enc_cfg with g_h := value } }

/-- Setter `g_limit`: `self.enc_cfg.g_limit = value; self`. -/
def AV1EncoderConfig.g_limit (self : AV1EncoderConfig) (value : Nat) : AV1EncoderConfig :=
  { self with enc_cfg := { self.enc_cfg with g_limit := value } }

/-- Setter `g_forced_max_frame_width`: `self.enc_cfg.g_forced_max_frame_width = value; self`. -/
def AV1EncoderConfig.g_forced_max_frame_width (self : AV1EncoderConfig) (value : Nat) : AV1EncoderConfig :=
  { self with enc_cfg := { self.enc_cfg with g_forced_max_frame_width := value } }

/-- Setter `g_forced_max_frame_height`: `self.enc_cfg.g_forced_max_frame_height = value; self`. -/
def AV1EncoderConfig.g_forced_max_frame_height (self : AV1EncoderConfig) (value : Nat) : AV1EncoderConfig :=
  { self with enc_cfg := { self.enc_cfg with g_forced_max_frame_height := value } }

/-- Setter `g_bit_depth`: `self.enc_cfg.g_bit_depth = value; self`. -/
def AV1EncoderConfig.g_bit_depth (self : AV1EncoderConfig) (value : Nat) : AV1EncoderConfig :=
  { self with enc_cfg := { self.enc_cfg with g_bit_depth := value } }

/-- Setter `g_input_bit_depth`: `self.enc_cfg.g_input_bit_depth = value; self`. -/
def AV1EncoderConfig.g_input_bit_depth (self : AV1EncoderConfig) (value : Nat) : AV1EncoderConfig :=
  { self with enc_cfg := { self.enc_cfg with g_input_bit_depth := value } }

/-- Setter `g_timebase`: `self.enc_cfg.g_timebase = value; self`. -/
def AV1EncoderConfig.g_timebase (self : AV1EncoderConfig) (value : AomRational) : AV1EncoderConfig :=
  { self with enc_cfg := { self.enc_cfg with g_timebase := value } }

/-- Setter `g_error_resilient`: `self.enc_cfg.g_error_resilient = value; self`. -/
def AV1EncoderConfig.g_error_resilient (self : AV1EncoderConfig) (value : Nat) : AV1EncoderConfig :=
  { self with enc_cfg := { self.enc_cfg with g_error_resilient := value } }

/-- Setter `g_pass`: `self.enc_cfg.g_pass = value; self`. -/
def AV1EncoderConfig.g_pass (self : AV1EncoderConfig) (value : Nat) : AV1EncoderConfig :=
  { self with enc_cfg := { self.enc_cfg with g_pass := value } }

/-- Setter `g_lag_in_frames`: `self.enc_cfg.g_lag_in_frames = value; self`. -/
def AV1EncoderConfig.g_lag_in_frames (self : AV1EncoderConfig) (value : Nat) : AV1EncoderConfig :=
  { self with enc_cfg := { self.enc_cfg with g_lag_in_frames := value } }

/-- Setter `rc_dropframe_thresh`: `self.enc_cfg.rc_dropframe_thresh = value; self`. -/
def AV1EncoderConfig.rc_dropframe_thresh (self : AV1EncoderConfig) (value : Nat) : AV1EncoderConfig :=
  { self with enc_cfg := { self.enc_cfg with rc_dropframe_thresh := value } }

/-- Setter `rc_resize_mode`: `self.enc_cfg.rc_resize_mode = value; self`. -/
def AV1EncoderConfig.rc_resize_mode (self : AV1EncoderConfig) (value : Nat) : AV1EncoderConfig :=
  { self with enc_cfg := { self.enc_cfg with rc_resize_mode := value } }

/-- Setter `rc_resize_denominator`: `self.enc_cfg.rc_resize_denominator = value; self`. -/
def AV1EncoderConfig.rc_resize_denominator (self : AV1EncoderConfig) (value : Nat) : AV1EncoderConfig :=
  { self with enc_cfg := { self.enc_cfg with rc_resize_denominator := value } }

/-- Setter `rc_resize_kf_denominator`: `self.enc_cfg.rc_resize_kf_denominator = value; self`. -/
def AV1EncoderConfig.rc_resize_kf_denominator (self : AV1EncoderConfig) (value : Nat) : AV1EncoderConfig :=
  { self with enc_cfg := { self.enc_cfg with rc_resize_kf_denominator := value } }

/-- Setter `rc_superres_mode`: `self.enc_cfg.rc_superres_mode = value; self`. -/
def AV1EncoderConfig.rc_superres_mode (self : AV1EncoderConfig) (value : Nat) : AV1EncoderConfig :=
  { self with enc_cfg := { self.enc_cfg with rc_superres_mode := value } }

/-- Setter `rc_superres_denominator`: `self.enc_cfg.rc_superres_denominator = value; self`. -/
def AV1EncoderConfig.rc_superres_denominator (self : AV1EncoderConfig) (value : Nat) : AV1EncoderConfig :=
  { self with enc_cfg := { self.enc_cfg with rc_superres_denominator := value } }

/-- Setter `rc_superres_kf_denominator`: `self.enc_cfg.rc_superres_kf_denominator = value; self`. -/
def AV1EncoderConfig.rc_superres_kf_denominator (self : AV1EncoderConfig) (value : Nat) : AV1EncoderConfig :=
  { self with enc_cfg := { self.enc_cfg with rc_superres_kf_denominator := value } }

/-- Setter `rc_superres_qthresh`: `self.enc_cfg.rc_superres_qthresh = value; self`. -/
def AV1EncoderConfig.rc_superres_qthresh (self : AV1EncoderConfig) (value : Nat) : AV1EncoderConfig :=
  { self with enc_cfg := { self.enc_cfg with rc_superres_qthresh := value } }

/-- Setter `rc_superres_kf_qthresh`: `self.enc_cfg.rc_superres_kf_qthresh = value; self`. -/
def AV1EncoderConfig.rc_superres_kf_qthresh (self : AV1EncoderConfig) (value : Nat) : AV1EncoderConfig :=
  { self with enc_cfg := { self.enc_cfg with rc_superres_kf_qthresh := value } }

/-- Setter `rc_end_usage`: `self.enc_cfg.rc_end_usage = value; self`. -/
def AV1EncoderConfig.rc_end_usage (self : AV1EncoderConfig) (value : Nat) : AV1EncoderConfig :=
  { self with enc_cfg := { self.enc_cfg with rc_end_usage := value } }

/-- Setter `rc_twopass_stats_in`: `self.enc_cfg.rc_twopass_stats_in = value; self`. -/
def AV1EncoderConfig.rc_twopass_stats_in (self : AV1EncoderConfig) (value : AomFixedBuf) : AV1EncoderConfig :=
  { self with enc_cfg := { self.enc_cfg with rc_twopass_stats_in := value } }

/-- Setter `rc_firstpass_mb_stats_in`: `self.enc_cfg.rc_firstpass_mb_stats_in = value; self`. -/
def AV1EncoderConfig.rc_firstpass_mb_stats_in (self : AV1EncoderConfig) (value : AomFixedBuf) : AV1EncoderConfig :=
  { self with enc_cfg := { self.enc_cfg with rc_firstpass_mb_stats_in := value } }

/-- Setter `rc_target_bitrate`: `self.enc_cfg.rc_target_bitrate = value; self`. -/
def AV1EncoderConfig.rc_target_bitrate (self : AV1EncoderConfig) (value : Nat) : AV1EncoderConfig :=
  { self with enc_cfg := { self.enc_cfg with rc_target_bitrate := value } }

/-- Setter `rc_min_quantizer`: `self.enc_cfg.rc_min_quantizer = value; self`. -/
def AV1EncoderConfig.rc_min_quantizer (self : AV1EncoderConfig) (value : Nat) : AV1EncoderConfig :=
  { self with enc_cfg := { self.enc_cfg with rc_min_quantizer := value } }

/-- Setter `rc_max_quantizer`: `self.enc_cfg.rc_max_quantizer = value; self`. -/
def AV1EncoderConfig.rc_max_quantizer (self : AV1EncoderConfig) (value : Nat) : AV1EncoderConfig :=
  { self with enc_cfg := { self.enc_cfg with rc_max_quantizer := value } }

/-- Setter `rc_undershoot_pct`: `self.enc_cfg.rc_undershoot_pct = value; self`. -/
def AV1EncoderConfig.rc_undershoot_pct (self : AV1EncoderConfig) (value : Nat) : AV1EncoderConfig :=
  { self with enc_cfg := { self.enc_cfg with rc_undershoot_pct := value } }

/-- Setter `rc_overshoot_pct`: `self.enc_cfg.rc_overshoot_pct = value; self`. -/
def AV1EncoderConfig.rc_overshoot_pct (self : AV1EncoderConfig) (value : Nat) : AV1EncoderConfig :=
  { self with enc_cfg := { self.enc_cfg with rc_overshoot_pct := value } }

/-- Setter `rc_buf_sz`: `self.enc_cfg.rc_buf_sz = value; self`. -/
def AV1EncoderConfig.rc_buf_sz (self : AV1EncoderConfig) (value : Nat) : AV1EncoderConfig :=
  { self with enc_cfg := { self.enc_cfg with rc_buf_sz := value } }

/-- Setter `rc_buf_initial_sz`: `self.enc_cfg.rc_buf_initial_sz = value; self`. -/
def AV1EncoderConfig.rc_buf_initial_sz (self : AV1EncoderConfig) (value : Nat) : AV1EncoderConfig :=
  { self with enc_cfg := { self.enc_cfg with rc_buf_initial_sz := value } }

/-- Setter `rc_buf_optimal_sz`: `self.enc_cfg.rc_buf_optimal_sz = value; self`. -/
def AV1EncoderConfig.rc_buf_optimal_sz (self : AV1EncoderConfig) (value : Nat) : AV1EncoderConfig :=
  { self with enc_cfg := { self.enc_cfg with rc_buf_optimal_sz := value } }

/-- Setter `rc_2pass_vbr_bias_pct`: `self.enc_cfg.rc_2pass_vbr_bias_pct = value; self`. -/
def AV1EncoderConfig.rc_2pass_vbr_bias_pct (self : AV1EncoderConfig) (value : Nat) : AV1EncoderConfig :=
  { self with enc_cfg := { self.enc_cfg with rc_2pass_vbr_bias_pct := value } }

/-- Setter `rc_2pass_vbr_minsection_pct`: `self.enc_cfg.rc_2pass_vbr_minsection_pct = value; self`. -/
def AV1EncoderConfig.rc_2pass_vbr_minsection_pct (self : AV1EncoderConfig) (value : Nat) : AV1EncoderConfig :=
  { self with enc_cfg := { self.enc_cfg with rc_2pass_vbr_minsection_pct := value } }

/-- Setter `rc_2pass_vbr_maxsection_pct`: `self.enc_cfg.rc_2pass_vbr_maxsection_pct = value; self`. -/
def AV1EncoderConfig.rc_2pass_vbr_maxsection_pct (self : AV1EncoderConfig) (value : Nat) : AV1EncoderConfig :=
  { self with enc_cfg := { self.enc_cfg with rc_2pass_vbr_maxsection_pct := value } }

/-- Setter `fwd_kf_enabled`: `self.enc_cfg.fwd_kf_enabled = value; self`. -/
def AV1EncoderConfig.fwd_kf_enabled (self : AV1EncoderConfig) (value : Int) : AV1EncoderConfig :=
  { self with enc_cfg := { self.enc_cfg with fwd_kf_enabled := value } }

/-- Setter `kf_mode`: `self.enc_cfg.kf_mode = value; self`. -/
def AV1EncoderConfig.kf_mode (self : AV1EncoderConfig) (value : Nat) : AV1EncoderConfig :=
  { self with enc_cfg := { self.enc_cfg with kf_mode := value } }

/-- Setter `kf_min_dist`: `self.enc_cfg.kf_min_dist = value; self`. -/
def AV1EncoderConfig.kf_min_dist (self : AV1EncoderConfig) (value : Nat) : AV1EncoderConfig :=
  { self with enc_cfg := { self.enc_cfg with kf_min_dist := value } }

/-- Setter `kf_max_dist`: `self.enc_cfg.kf_max_dist = value; self`. -/
def AV1EncoderConfig.kf_max_dist (self : AV1EncoderConfig) (value : Nat) : AV1EncoderConfig :=
  { self with enc_cfg := { self.enc_cfg with kf_max_dist := value } }

/-- Setter `sframe_dist`: `self.enc_cfg.sframe_dist = value; self`. -/
def AV1EncoderConfig.sframe_dist (self : AV1EncoderConfig) (value : Nat) : AV1EncoderConfig :=
  { self with enc_cfg := { self.enc_cfg with sframe_dist := value } }

/-- Setter `sframe_mode`: `self.enc_cfg.sframe_mode = value; self`. -/
def AV1EncoderConfig.sframe_mode (self : AV1EncoderConfig) (value : Nat) : AV1EncoderConfig :=
  { self with enc_cfg := { self.enc_cfg with sframe_mode := value } }

/-- Setter `large_scale_tile`: `self.enc_cfg.large_scale_tile = value; self`. -/
def AV1EncoderConfig.large_scale_tile (self : AV1EncoderConfig) (value : Nat) : AV1EncoderConfig :=
  { self with enc_cfg := { self.enc_cfg with large_scale_tile := value } }

/-- Setter `monochrome`: `self.enc_cfg.monochrome = value; self`. -/
def AV1EncoderConfig.monochrome (self : AV1EncoderConfig) (value : Nat) : AV1EncoderConfig :=
  { self with enc_cfg := { self.enc_cfg with monochrome := value } }

/-- Setter `full_still_picture_hdr`: `self.enc_cfg.full_still_picture_hdr = value; self`. -/
def AV1EncoderConfig.full_still_picture_hdr (self : AV1EncoderConfig) (value : Nat) : AV1EncoderConfig :=
  { self with enc_cfg := { self.enc_cfg with full_still_picture_hdr := value } }

/-- Setter `save_as_annexb`: `self.enc_cfg.save_as_annexb = value; self`. -/
def AV1EncoderConfig.save_as_annexb (self : AV1EncoderConfig) (value : Nat) : AV1EncoderConfig :=
  { self with enc_cfg := { self.enc_cfg with save_as_annexb := value } }

/-- Setter `tile_width_count`: `self.enc_cfg.tile_width_count = value; self`. -/
def AV1EncoderConfig.tile_width_count (self : AV1EncoderConfig) (value : Int) : AV1EncoderConfig :=
  { self with enc_cfg := { self.enc_cfg with tile_width_count := value } }

/-- Setter `tile_height_count`: `self.enc_cfg.tile_height_count = value; self`. -/
def AV1EncoderConfig.tile_height_count (self : AV1EncoderConfig) (value : Int) : AV1EncoderConfig :=
  { self with enc_cfg := { self.enc_cfg with tile_height_count := value } }

/-- Setter `tile_widths`: `self.enc_cfg.tile_widths = value; self`. -/
def AV1EncoderConfig.tile_widths (self : AV1EncoderConfig) (value : Fin 64 → Int) : AV1EncoderConfig :=
  { self with enc_cfg := { self.enc_cfg with tile_widths := value } }

/-- Setter `tile_heights`: `self.enc_cfg.tile_heights = value; self`. -/
def AV1EncoderConfig.tile_heights (self : AV1EncoderConfig) (value : Fin 64 → Int) : AV1EncoderConfig :=
  { self with enc_cfg := { self.enc_cfg with tile_heights := value } }

/-- Setter `use_fixed_qp_offsets`: `self.enc_cfg.use_fixed_qp_offsets = value; self`. -/
def AV1EncoderConfig.use_fixed_qp_offsets (self : AV1EncoderConfig) (value : Nat) : AV1EncoderConfig :=
  { self with enc_cfg := { self.enc_cfg with use_fixed_qp_offsets := value } }

/-- Setter `fixed_qp_offsets`: `self.enc_cfg.fixed_qp_offsets = value; self`. -/
def AV1EncoderConfig.fixed_qp_offsets (self : AV1EncoderConfig) (value : Fin 5 → Int) : AV1EncoderConfig :=
  { self with enc_cfg := { self.enc_cfg with fixed_qp_offsets := value } }

/-- Setter `encoder_cfg`: `self.enc_cfg.encoder_cfg = value; self`. -/
def AV1EncoderConfig.encoder_cfg (self : AV1EncoderConfig) (value : CfgOptions) : AV1EncoderConfig :=
  { self with enc_cfg := { self.enc_cfg with encoder_cfg := value } }


/-- `AOM_CODEC_OK` (0) of `aom_codec_err_t`. -/
def AOM_CODEC_OK : Nat := 0

/-- `AV1EncoderConfig::init(config)`: calls
`aom_codec_enc_config_default(aom_codec_av1_cx(), &mut cfg, config)`.  The
native call is an oracle returning its error code together with the record
it wrote into `cfg`.  On `AOM_CODEC_OK` the written record is taken as the
configuration; on any other code an error is returned whose message embeds
the numeric code, and no configuration is constructed. -/
def AV1EncoderConfig.init (native_config_default : Nat → Nat × AomCodecEncCfg)
    (config : Nat) : Except String AV1EncoderConfig :=
  let r := native_config_default config
  let is_success := r.1
  if is_success = AOM_CODEC_OK then
    .ok { enc_cfg := r.2 }
  else
    .error ("Failed to initialize encoder: error code " ++ toString is_success)

/-! ### Frame and image marshalling (`utils.rs`)

`av_data` frame types are external to the repository; they are modelled
with exactly the accessors the wrapper uses.  `Formaton` is opaque up to
the structural equality Rust's `PartialEq` gives it, plus the three
colour accessors `get_primaries` / `get_xfer` / `get_matrix` the wrapper
copies. -/

/-- `av_data::pixel::Formaton`, opaquely: a tag deciding structural
equality, plus the three accessors the wrapper reads. -/
structure Formaton where
  tag : Nat
  primaries : Nat
  xfer : Nat
  matrix : Nat
deriving DecidableEq, Repr

/-- The `av_data::pixel::formats::YUV420` constant (opaque model: its tag
distinguishes it from every other format). -/
def YUV420 : Formaton := { tag := 420, primaries := 2, xfer := 2, matrix := 1 }

/-- `av_data::frame::VideoInfo` (the fields the wrapper reads). -/
structure VideoInfo where
  width : Nat
  height : Nat
  format : Formaton
deriving DecidableEq, Repr

/-- `av_data::frame::MediaKind`.  The audio payload is irrelevant to the
wrapper (`if let MediaKind::Video` skips it) and is omitted. -/
inductive MediaKind where
  | Video (v : VideoInfo)
  | Audio
deriving DecidableEq, Repr

/-- The wrapper's view of `frame.buf` (a `FrameBuffer` trait object):
plane count, the address `as_slice(i).unwrap().as_ptr()` yields, and
`linesize(i).unwrap()`; both accessors are assumed to succeed for the
indices `0..count` the wrapper uses, per the trait's contract. -/
structure FrameBuffer where
  count : Nat
  planeAddr : Nat → Nat
  linesize : Nat → Nat

/-- `av_data::frame::Frame` (the fields the wrapper reads). -/
structure Frame where
  kind : MediaKind
  buf : FrameBuffer
  t : TimeInfo

/-- `AOM_IMG_FMT_I420 = AOM_IMG_FMT_PLANAR | 2 = 0x102` (libaom
`aom_image.h`). -/
def AOM_IMG_FMT_I420 : Nat := 258

/-- `usize as u32`: reduce modulo `2^32`. -/
def toU32 (n : Nat) : Nat := n % 2 ^ 32

/-- `usize as i32`: reduce modulo `2^32`, then reinterpret as signed. -/
def toI32 (n : Nat) : Int :=
  if n % 2 ^ 32 < 2 ^ 31 then ((n % 2 ^ 32 : Nat) : Int)
  else ((n % 2 ^ 32 : Nat) : Int) - 2 ^ 32

/-- `aom_image` (the fields the wrapper writes; `planes` and `stride` are
the native 3-entry arrays). -/
structure AomImage where
  fmt : Nat
  cp : Nat
  tc : Nat
  mc : Nat
  w : Nat
  h : Nat
  d_w : Nat
  d_h : Nat
  bit_depth : Nat
  bps : Nat
  x_chroma_shift : Nat
  y_chroma_shift : Nat
  planes : Fin 3 → Nat
  stride : Fin 3 → Int

/-- `mem::zeroed::<aom_image>()`. -/
def zeroedAomImage : AomImage :=
  { fmt := 0, cp := 0, tc := 0, mc := 0, w := 0, h := 0, d_w := 0, d_h := 0,
    bit_depth := 0, bps := 0, x_chroma_shift := 0, y_chroma_shift := 0,
    planes := fun _ => 0, stride := fun _ => 0 }

/-- `utils::map_fmt_to_img` (non-Windows variant): copy the colour
description into the image. -/
def map_fmt_to_img (img : AomImage) (fmt : Formaton) : AomImage :=
  { img with cp := fmt.primaries, tc := fmt.xfer, mc := fmt.matrix }

/-- `utils::map_formaton`: `I420` for `YUV420` and `unimplemented!()` for
every other format; on the surviving path set bit depth 8, 12 bits per
sample, chroma shifts 1, then copy the colour description. -/
def map_formaton (img : AomImage) (fmt : Formaton) : Except String AomImage :=
  if fmt = YUV420 then
    let img := { img with fmt := AOM_IMG_FMT_I420 }
    let img := { img with bit_depth := 8, bps := 12,
                          x_chroma_shift := 1, y_chroma_shift := 1 }
    .ok (map_fmt_to_img img fmt)
  else
    .error "not implemented"

/-- The plane loop of `img_from_frame`: for each `i` in order, write
`planes[i]` and `stride[i]`; indexing the native 3-entry arrays out of
bounds is a Rust panic. -/
def setPlanesLoop (buf : FrameBuffer) : List Nat → AomImage → Except String AomImage
  | [], img => .ok img
  | i :: rest, img =>
    if h : i < 3 then
      setPlanesLoop buf rest
        { img with planes := Function.update img.planes ⟨i, h⟩ (buf.planeAddr i),
                   stride := Function.update img.stride ⟨i, h⟩ (toI32 (buf.linesize i)) }
    else
      .error "index out of bounds"

/-- `utils::img_from_frame`: zero the image; if the frame is video, map
the format (whose panic propagates) and copy the (truncated-to-`u32`)
dimensions; then copy each plane pointer and linesize. -/
def img_from_frame (frame : Frame) : Except String AomImage :=
  let img : AomImage := zeroedAomImage
  let step : Except String AomImage :=
    match frame.kind with
    | .Video v =>
      match map_formaton img v.format with
      | .error e => .error e
      | .ok i => .ok { i with w := toU32 v.width, h := toU32 v.height,
                              d_w := toU32 v.width, d_h := toU32 v.height }
    | .Audio => .ok img
  match step with
  | .error e => .error e
  | .ok img => setPlanesLoop frame.buf (List.range frame.buf.count) img

/-! ### Encoder handle (`core/encoder.rs`)

The native library's behaviour is an oracle (`NativeEnv`); every native
call an operation performs is recorded in its trace. -/

/-- `AOME_SET_CPUUSED = 13` (libaom `aomcx.h`). -/
def AOME_SET_CPUUSED : Nat := 13

/-- `AOM_ENCODER_ABI_VERSION` (generated binding constant; its exact
value does not affect any claim). -/
def AOM_ENCODER_ABI_VERSION : Nat := 32

/-- One call into the native library, with the arguments the wrapper
passes. -/
inductive NativeCall where
  | encInitVer (cfg : AomCodecEncCfg) (flags : Nat) (abi : Nat)
  | codecControl (id : Nat) (val : Int)
  | codecEncode (img : Option AomImage) (pts : Int) (duration : Nat) (flags : Nat)
  | getCxData
  | codecDestroy (ctx : Nat)

/-- Whether a native call is `aom_codec_destroy`. -/
def NativeCall.isDestroy : NativeCall → Bool
  | .codecDestroy _ => true
  | _ => false

/-- Oracle for the native library's return values. -/
structure NativeEnv where
  enc_init_ver : AomCodecEncCfg → Nat
  codec_control : Nat → Int → Nat
  codec_encode : Option AomImage → Int → Nat
  get_cx_data : Nat → Option AomCodecCxPkt × Nat

/-- `AV1Encoder`: the opaque native context plus the packet iterator
(`0` models `ptr::null()`). -/
structure AV1Encoder where
  ctx : Nat
  iter : Nat
deriving DecidableEq, Repr

/-- `AV1Encoder::aom_codec_control`: call `aom_codec_control(ctx, id, val)`
and match on the return code.  The source's `aom_codec_err_t_AOM_CODEC_OK`
arm is an unresolved identifier in `encoder.rs` — the constant is not in
its `use` list (unlike `config.rs`) — so Rust reads it as a catch-all
binding pattern, the `Err` arm is unreachable (its warning silenced by the
crate's `#![allow(warnings)]`), and the function returns `Ok(())` for
every native return code. -/
def AV1Encoder.aom_codec_control (env : NativeEnv) (e : AV1Encoder)
    (id : Nat) (val : Int) : (Except Nat Unit × AV1Encoder) × List NativeCall :=
  let _ret := env.codec_control id val
  ((.ok (), e), [.codecControl id val])

/-- `AV1Encoder::new`: `aom_codec_enc_init_ver` with flags 0; on code 0
build the handle with a null iterator and set `AOME_SET_CPUUSED` to 2
(`.expect(...)` panics if that fails); on any other code return it as
`Err`.  `ctx` is the opaque handle the native init writes. -/
def AV1Encoder.new (env : NativeEnv) (cfg : AV1EncoderConfig) (ctx : Nat) :
    Except String (Except Nat AV1Encoder) × List NativeCall :=
  let result := env.enc_init_ver cfg.enc_cfg
  let initCall := NativeCall.encInitVer cfg.enc_cfg 0 AOM_ENCODER_ABI_VERSION
  if result = 0 then
    let e : AV1Encoder := { ctx := ctx, iter := 0 }
    let cr := AV1Encoder.aom_codec_control env e AOME_SET_CPUUSED 2
    match cr.1.1 with
    | .ok _ => (.ok (.ok cr.1.2), initCall :: cr.2)
    | .error _ => (.error "Cannot set CPUUSED", initCall :: cr.2)
  else
    (.ok (.error result), [initCall])

/-- `AV1Encoder::aom_codec_encode`: marshal the frame (its panics
propagate), `unwrap()` the pts (panics on `None`), call
`aom_codec_encode(ctx, &img, pts, 1, 0)` and null the iterator.  As in
`aom_codec_control`, the `AOM_CODEC_OK` match arm is a catch-all binding
(the constant is not imported in `encoder.rs`), so the return code is
discarded and the result is always `Ok(())`. -/
def AV1Encoder.aom_codec_encode (env : NativeEnv) (e : AV1Encoder)
    (frame : Frame) :
    Except String (Except Nat Unit × AV1Encoder) × List NativeCall :=
  match img_from_frame frame with
  | .error msg => (.error msg, [])
  | .ok img =>
    match frame.t.pts with
    | none => (.error "called Option::unwrap() on a None value", [])
    | some pts =>
      let _ret := env.codec_encode (some img) pts
      let e := { e with iter := 0 }
      (.ok (.ok (), e), [.codecEncode (some img) pts 1 0])

/-- `AV1Encoder::flush`: `aom_codec_encode(ctx, null, 0, 1, 0)` and null
the iterator.  As in `aom_codec_control`, the `AOM_CODEC_OK` match arm is
a catch-all binding (the constant is not imported in `encoder.rs`), so
the return code is discarded and the result is always `Ok(())`. -/
def AV1Encoder.flush (env : NativeEnv) (e : AV1Encoder) :
    (Except Nat Unit × AV1Encoder) × List NativeCall :=
  let _ret := env.codec_encode none 0
  let e := { e with iter := 0 }
  ((.ok (), e), [.codecEncode none 0 1 0])

/-- `AV1Encoder::get_packet`: `aom_codec_get_cx_data(ctx, &mut iter)`;
`None` on a null packet, otherwise decode it with `AOMPacket::new`
(whose panic propagates). -/
def AV1Encoder.get_packet (env : NativeEnv) (mem : Mem) (e : AV1Encoder) :
    Except String (Option AOMPacket × AV1Encoder) × List NativeCall :=
  let r := env.get_cx_data e.iter
  let e := { e with iter := r.2 }
  match r.1 with
  | none => (.ok (none, e), [.getCxData])
  | some pkt =>
    match AOMPacket.new mem pkt with
    | .error msg => (.error msg, [.getCxData])
    | .ok p => (.ok (some p, e), [.getCxData])

/-- `impl Drop for AV1Encoder`: call `aom_codec_destroy(&mut ctx)`. -/
def AV1Encoder.drop (e : AV1Encoder) : Unit × List NativeCall :=
  ((), [.codecDestroy e.ctx])

/-! ### Theorems -/

/-- Concrete native memory used by witnesses. -/
def exMem : Mem := fun a => (a + 7) % 256

/-- Concrete PSNR union member used by witnesses. -/
def exPsnr : PsnrData :=
  { samples := fun _ => 1, psnr := fun _ => 2, sse := fun _ => 3,
    samples_hbd := fun _ => 4, sse_hbd := fun _ => 5, psnr_hbd := fun _ => 6 }

/-- Concrete frame union member used by witnesses. -/
def exFrameData : FrameData :=
  { buf := 64, sz := 2, pts := 9, duration := 1, flags := 1, partition_id := 0 }

/-- Concrete packet union used by witnesses. -/
def exPktData : PktData :=
  { frame := exFrameData, twopass_stats := { buf := 32, sz := 3 },
    raw := { buf := 16, sz := 1 }, firstpass_mb_stats := { buf := 8, sz := 2 },
    psnr := exPsnr }

/-- A packet of a given kind over the witness union. -/
def mkPkt (k : Nat) : AomCodecCxPkt := { kind := k, data := exPktData }

/-- C3: `to_buffer` returns an owned byte vector of length `sz` whose
`i`-th byte is the `i`-th byte of the native buffer, for every `i < sz`. -/
theorem to_buffer_copies_native_buffer (mem : Mem) (b : AomFixedBuf) :
    (to_buffer mem b).length = b.sz ∧
    ∀ i, i < b.sz → (to_buffer mem b)[i]? = some (mem (b.buf + i)) :=
  ⟨readBytes_length mem b.buf b.sz,
   fun i h => readBytes_getElem? mem b.buf b.sz i h⟩

/-- C3 witness: a three-byte native buffer at address 100 under `exMem`. -/
theorem to_buffer_copies_native_buffer_witness :
    (to_buffer exMem { buf := 100, sz := 3 }).length = 3 ∧
    (to_buffer exMem { buf := 100, sz := 3 })[2]? = some 109 := by
  have h := to_buffer_copies_native_buffer exMem { buf := 100, sz := 3 }
  exact ⟨h.1, by simpa [exMem] using h.2 2 (by decide)⟩

/-- C1: on each of the five known packet kinds, `AOMPacket::new` returns
the matching tagged variant (compressed frame ↦ `Frame`, two-pass stats ↦
`TwoPassStats`, first-pass MB stats ↦ `FirstPassMBStats`, PSNR ↦ `PSNR`,
raw/custom ↦ `Raw`), and the payload bytes — or, for PSNR, the six fixed
arrays — are copied unchanged into the owned result. -/
theorem aompacket_new_decodes_known_kinds (mem : Mem) (pkt : AomCodecCxPkt) :
    (pkt.kind = AOM_CODEC_CX_FRAME_PKT →
      ∃ p : Packet, AOMPacket.new mem pkt = .ok (.Frame p) ∧
        p.data.length = pkt.data.frame.sz ∧
        ∀ i, i < pkt.data.frame.sz →
          p.data[i]? = some (mem (pkt.data.frame.buf + i))) ∧
    (pkt.kind = AOM_CODEC_STATS_PKT →
      ∃ b : List Nat, AOMPacket.new mem pkt = .ok (.TwoPassStats b) ∧
        b.length = pkt.data.twopass_stats.sz ∧
        ∀ i, i < pkt.data.twopass_stats.sz →
          b[i]? = some (mem (pkt.data.twopass_stats.buf + i))) ∧
    (pkt.kind = AOM_CODEC_FPMB_STATS_PKT →
      ∃ b : List Nat, AOMPacket.new mem pkt = .ok (.FirstPassMBStats b) ∧
        b.length = pkt.data.firstpass_mb_stats.sz ∧
        ∀ i, i < pkt.data.firstpass_mb_stats.sz →
          b[i]? = some (mem (pkt.data.firstpass_mb_stats.buf + i))) ∧
    (pkt.kind = AOM_CODEC_PSNR_PKT →
      AOMPacket.new mem pkt = .ok (.PSNR
        { samples := pkt.data.psnr.samples, psnr := pkt.data.psnr.psnr,
          sse := pkt.data.psnr.sse, samples_hbd := pkt.data.psnr.samples_hbd,
          sse_hbd := pkt.data.psnr.sse_hbd,
          psnr_hbd := pkt.data.psnr.psnr_hbd })) ∧
    (pkt.kind = AOM_CODEC_CUSTOM_PKT →
      ∃ b : List Nat, AOMPacket.new mem pkt = .ok (.Raw b) ∧
        b.length = pkt.data.raw.sz ∧
        ∀ i, i < pkt.data.raw.sz →
          b[i]? = some (mem (pkt.data.raw.buf + i))) := by
  refine ⟨fun h => ?_, fun h => ?_, fun h => ?_, fun h => ?_, fun h => ?_⟩ <;>
    simp only [AOMPacket.new, AOM_CODEC_CX_FRAME_PKT, AOM_CODEC_STATS_PKT,
      AOM_CODEC_FPMB_STATS_PKT, AOM_CODEC_PSNR_PKT, AOM_CODEC_CUSTOM_PKT, h,
      if_true, if_false]
  case _ =>
    exact ⟨_, rfl, readBytes_length _ _ _,
      fun i hi => readBytes_getElem? _ _ _ i hi⟩
  case _ =>
    exact ⟨_, rfl, readBytes_length _ _ _,
      fun i hi => readBytes_getElem? _ _ _ i hi⟩
  case _ =>
    exact ⟨_, rfl, readBytes_length _ _ _,
      fun i hi => readBytes_getElem? _ _ _ i hi⟩
  case _ =>
    norm_num
  case _ =>
    exact ⟨_, rfl, readBytes_length _ _ _,
      fun i hi => readBytes_getElem? _ _ _ i hi⟩

/-- C1 witness: a two-pass-statistics packet over the witness union. -/
theorem aompacket_new_decodes_known_kinds_witness :
    ∃ b : List Nat,
      AOMPacket.new exMem (mkPkt AOM_CODEC_STATS_PKT) = .ok (.TwoPassStats b) ∧
      b.length = (mkPkt AOM_CODEC_STATS_PKT).data.twopass_stats.sz ∧
      ∀ i, i < (mkPkt AOM_CODEC_STATS_PKT).data.twopass_stats.sz →
        b[i]? = some (exMem ((mkPkt AOM_CODEC_STATS_PKT).data.twopass_stats.buf + i)) :=
  (aompacket_new_decodes_known_kinds exMem (mkPkt AOM_CODEC_STATS_PKT)).2.1 rfl

/-- C8: on a packet whose kind is none of the five known kinds,
`AOMPacket::new` panics with "Invalid aom packet kind detected", and
`AV1Encoder::get_packet` propagates that panic instead of returning a
variant. -/
theorem aompacket_new_unknown_kind_panics (mem : Mem) (env : NativeEnv)
    (e : AV1Encoder) (pkt : AomCodecCxPkt)
    (h1 : pkt.kind ≠ AOM_CODEC_CX_FRAME_PKT)
    (h2 : pkt.kind ≠ AOM_CODEC_STATS_PKT)
    (h3 : pkt.kind ≠ AOM_CODEC_FPMB_STATS_PKT)
    (h4 : pkt.kind ≠ AOM_CODEC_PSNR_PKT)
    (h5 : pkt.kind ≠ AOM_CODEC_CUSTOM_PKT) :
    AOMPacket.new mem pkt = .error "Invalid aom packet kind detected" ∧
    ((env.get_cx_data e.iter).1 = some pkt →
      (AV1Encoder.get_packet env mem e).1 =
        .error "Invalid aom packet kind detected") := by
  have hnew : AOMPacket.new mem pkt = .error "Invalid aom packet kind detected" := by
    simp only [AOMPacket.new, if_neg h1, if_neg h2, if_neg h3, if_neg h4, if_neg h5]
  refine ⟨hnew, fun hdata => ?_⟩
  simp only [AV1Encoder.get_packet, hdata, hnew]

/-- C8 witness: a packet of kind 5 (not one of the five known kinds),
served by an oracle whose `get_cx_data` yields it. -/
theorem aompacket_new_unknown_kind_panics_witness :
    AOMPacket.new exMem (mkPkt 5) = .error "Invalid aom packet kind detected" ∧
    (AV1Encoder.get_packet
        { enc_init_ver := fun _ => 0, codec_control := fun _ _ => 0,
          codec_encode := fun _ _ => 0,
          get_cx_data := fun _ => (some (mkPkt 5), 0) }
        exMem { ctx := 1, iter := 0 }).1 =
      .error "Invalid aom packet kind detected" := by
  have h := aompacket_new_unknown_kind_panics exMem
    { enc_init_ver := fun _ => 0, codec_control := fun _ _ => 0,
      codec_encode := fun _ _ => 0, get_cx_data := fun _ => (some (mkPkt 5), 0) }
    { ctx := 1, iter := 0 } (mkPkt 5)
    (by decide) (by decide) (by decide) (by decide) (by decide)
  exact ⟨h.1, h.2 rfl⟩

/-- A video frame (2×2 YUV420, three planes, pts 7) used by witnesses. -/
def exFrame : Frame :=
  { kind := .Video { width := 2, height := 2, format := YUV420 },
    buf := { count := 3, planeAddr := fun i => 100 + i, linesize := fun i => 10 + i },
    t := { pts := some 7, dts := none, duration := none } }

/-- `exFrame` without a presentation timestamp. -/
def exFrameNoPts : Frame :=
  { exFrame with t := { pts := none, dts := none, duration := none } }

/-- The image `img_from_frame` produces from `exFrame` (defined by
evaluation, so that `img_from_frame exFrame = .ok exImg` holds by `rfl`). -/
def exImg : AomImage :=
  match img_from_frame exFrame with
  | .ok i => i
  | .error _ => zeroedAomImage

/-- An oracle whose every native call reports success and yields no
packet. -/
def exEnvOk : NativeEnv :=
  { enc_init_ver := fun _ => 0, codec_control := fun _ _ => 0,
    codec_encode := fun _ _ => 0, get_cx_data := fun _ => (none, 0) }

/-- An oracle whose every native call fails with code 8
(`AOM_CODEC_INVALID_PARAM`). -/
def exEnvErr : NativeEnv :=
  { enc_init_ver := fun _ => 8, codec_control := fun _ _ => 8,
    codec_encode := fun _ _ => 8, get_cx_data := fun _ => (none, 0) }

/-- C2 (code bug): because `aom_codec_err_t_AOM_CODEC_OK` is not imported
in `encoder.rs`, the source's `AOM_CODEC_OK` match arm is a catch-all
binding and the `Err` arm is unreachable: `aom_codec_control`,
`aom_codec_encode` and `flush` return `Ok(())` even when the native call
fails — evaluated here at the failing input, an oracle whose every native
call returns error code 8 (`AOM_CODEC_INVALID_PARAM`), against the claim's
`Err(8)`. -/
theorem encoder_ops_swallow_native_errors :
    exEnvErr.codec_control 13 2 = 8 ∧
    (AV1Encoder.aom_codec_control exEnvErr { ctx := 1, iter := 0 } 13 2).1.1 =
      .ok () ∧
    exEnvErr.codec_encode (some exImg) 7 = 8 ∧
    (AV1Encoder.aom_codec_encode exEnvErr { ctx := 1, iter := 0 } exFrame).1 =
      .ok (.ok (), { ctx := 1, iter := 0 }) ∧
    exEnvErr.codec_encode none 0 = 8 ∧
    (AV1Encoder.flush exEnvErr { ctx := 1, iter := 0 }).1.1 = .ok () :=
  ⟨rfl, rfl, rfl, rfl, rfl, rfl⟩

/-- C10: `aom_codec_encode` requires a presentation timestamp.  A frame
without a pts panics before the native encode call (its native-call trace
is empty) — with the `unwrap`-on-`None` panic whenever the frame itself
marshals; a frame with a pts that reaches the native call passes exactly
that timestamp. -/
theorem aom_codec_encode_requires_pts (env : NativeEnv) (e : AV1Encoder)
    (frame : Frame) :
    (frame.t.pts = none →
      (∃ msg, (AV1Encoder.aom_codec_encode env e frame).1 = .error msg) ∧
      (AV1Encoder.aom_codec_encode env e frame).2 = []) ∧
    (∀ img, img_from_frame frame = .ok img → frame.t.pts = none →
      (AV1Encoder.aom_codec_encode env e frame).1 =
        .error "called Option::unwrap() on a None value") ∧
    (∀ img pts, img_from_frame frame = .ok img → frame.t.pts = some pts →
      (AV1Encoder.aom_codec_encode env e frame).2 =
        [NativeCall.codecEncode (some img) pts 1 0]) := by
  refine ⟨fun hn => ?_, fun img himg hn => ?_, fun img pts himg hp => ?_⟩
  · cases himg : img_from_frame frame with
    | error msg =>
        exact ⟨⟨msg, by simp [AV1Encoder.aom_codec_encode, himg]⟩,
          by simp [AV1Encoder.aom_codec_encode, himg]⟩
    | ok img =>
        exact ⟨⟨"called Option::unwrap() on a None value",
          by simp [AV1Encoder.aom_codec_encode, himg, hn]⟩,
          by simp [AV1Encoder.aom_codec_encode, himg, hn]⟩
  · simp [AV1Encoder.aom_codec_encode, himg, hn]
  · simp [AV1Encoder.aom_codec_encode, himg, hp]

/-- C10 witness: `exFrame` without a pts panics with an empty trace and
the `unwrap` message; with pts 7 the trace carries exactly pts 7. -/
theorem aom_codec_encode_requires_pts_witness :
    (∃ msg, (AV1Encoder.aom_codec_encode exEnvOk { ctx := 1, iter := 0 }
      exFrameNoPts).1 = .error msg) ∧
    (AV1Encoder.aom_codec_encode exEnvOk { ctx := 1, iter := 0 }
      exFrameNoPts).2 = [] ∧
    (AV1Encoder.aom_codec_encode exEnvOk { ctx := 1, iter := 0 }
      exFrameNoPts).1 = .error "called Option::unwrap() on a None value" ∧
    (AV1Encoder.aom_codec_encode exEnvOk { ctx := 1, iter := 0 } exFrame).2 =
      [NativeCall.codecEncode (some exImg) 7 1 0] := by
  have h1 := aom_codec_encode_requires_pts exEnvOk { ctx := 1, iter := 0 }
    exFrameNoPts
  have h2 := aom_codec_encode_requires_pts exEnvOk { ctx := 1, iter := 0 }
    exFrame
  exact ⟨(h1.1 rfl).1, (h1.1 rfl).2, h1.2.1 exImg rfl rfl,
    h2.2.2 exImg 7 rfl rfl⟩

/-- C5: `AV1EncoderConfig::init` returns `Ok` holding exactly the record
the native default-configuration call wrote when that call returns
`AOM_CODEC_OK`, and otherwise an `Err` whose message embeds the native
error code (and carries no configuration). -/
theorem av1_encoder_config_init_spec
    (native : Nat → Nat × AomCodecEncCfg) (config : Nat) :
    ((native config).1 = AOM_CODEC_OK →
      AV1EncoderConfig.init native config = .ok { enc_cfg := (native config).2 }) ∧
    ((native config).1 ≠ AOM_CODEC_OK →
      AV1EncoderConfig.init native config =
        .error ("Failed to initialize encoder: error code " ++
          toString (native config).1)) := by
  refine ⟨fun h => ?_, fun h => ?_⟩
  · simp only [AV1EncoderConfig.init, if_pos h]
  · simp only [AV1EncoderConfig.init, if_neg h]

/-- A concrete default configuration record used by witnesses. -/
def exCfgRecord : AomCodecEncCfg :=
  { g_usage := 0, g_threads := 1, g_profile := 0, g_w := 320, g_h := 240,
    g_limit := 0, g_forced_max_frame_width := 0, g_forced_max_frame_height := 0,
    g_bit_depth := 8, g_input_bit_depth := 8,
    g_timebase := { num := 1, den := 30 }, g_error_resilient := 0, g_pass := 0,
    g_lag_in_frames := 0, rc_dropframe_thresh := 0, rc_resize_mode := 0,
    rc_resize_denominator := 8, rc_resize_kf_denominator := 8,
    rc_superres_mode := 0, rc_superres_denominator := 8,
    rc_superres_kf_denominator := 8, rc_superres_qthresh := 63,
    rc_superres_kf_qthresh := 63, rc_end_usage := 0,
    rc_twopass_stats_in := { buf := 0, sz := 0 },
    rc_firstpass_mb_stats_in := { buf := 0, sz := 0 },
    rc_target_bitrate := 256, rc_min_quantizer := 0, rc_max_quantizer := 63,
    rc_undershoot_pct := 25, rc_overshoot_pct := 25, rc_buf_sz := 6000,
    rc_buf_initial_sz := 4000, rc_buf_optimal_sz := 5000,
    rc_2pass_vbr_bias_pct := 50, rc_2pass_vbr_minsection_pct := 0,
    rc_2pass_vbr_maxsection_pct := 2000, fwd_kf_enabled := 0, kf_mode := 1,
    kf_min_dist := 0, kf_max_dist := 9999, sframe_dist := 0, sframe_mode := 1,
    large_scale_tile := 0, monochrome := 0, full_still_picture_hdr := 0,
    save_as_annexb := 0, tile_width_count := 0, tile_height_count := 0,
    tile_widths := fun _ => 0, tile_heights := fun _ => 0,
    use_fixed_qp_offsets := 0, fixed_qp_offsets := fun _ => -1,
    encoder_cfg := { raw := 0 } }

/-- C5 witness: a succeeding and a failing native default-configuration
call. -/
theorem av1_encoder_config_init_spec_witness :
    AV1EncoderConfig.init (fun _ => (0, exCfgRecord)) 0 =
      .ok { enc_cfg := exCfgRecord } ∧
    AV1EncoderConfig.init (fun _ => (8, exCfgRecord)) 0 =
      .error "Failed to initialize encoder: error code 8" :=
  ⟨(av1_encoder_config_init_spec (fun _ => (0, exCfgRecord)) 0).1 rfl,
   (av1_encoder_config_init_spec (fun _ => (8, exCfgRecord)) 0).2 (by decide)⟩

/-- C7: dropping an `AV1Encoder` issues exactly one `aom_codec_destroy`,
on its own context; no other operation of the wrapper
(`new`, `aom_codec_control`, `aom_codec_encode`, `flush`, `get_packet`)
ever issues a destroy, so under Rust's guarantee that `drop` runs once at
end of scope the context is released exactly once and never before. -/
theorem destroy_called_exactly_once_on_drop (env : NativeEnv) (mem : Mem)
    (cfg : AV1EncoderConfig) (ctx : Nat) (e : AV1Encoder) (id : Nat)
    (val : Int) (frame : Frame) :
    (AV1Encoder.drop e).2 = [NativeCall.codecDestroy e.ctx] ∧
    List.countP NativeCall.isDestroy (AV1Encoder.drop e).2 = 1 ∧
    List.countP NativeCall.isDestroy (AV1Encoder.new env cfg ctx).2 = 0 ∧
    List.countP NativeCall.isDestroy
      (AV1Encoder.aom_codec_control env e id val).2 = 0 ∧
    List.countP NativeCall.isDestroy
      (AV1Encoder.aom_codec_encode env e frame).2 = 0 ∧
    List.countP NativeCall.isDestroy (AV1Encoder.flush env e).2 = 0 ∧
    List.countP NativeCall.isDestroy (AV1Encoder.get_packet env mem e).2 = 0 := by
  refine ⟨rfl, rfl, ?_, rfl, ?_, rfl, ?_⟩
  · simp only [AV1Encoder.new, AV1Encoder.aom_codec_control]
    split
    · rfl
    · rfl
  · simp only [AV1Encoder.aom_codec_encode]
    split
    · rfl
    · split <;> rfl
  · simp only [AV1Encoder.get_packet]
    split
    · rfl
    · split <;> rfl

/-- `usize as i32` is the identity on values below `2^31`. -/
theorem toI32_eq_of_lt (n : Nat) (h : n < 2 ^ 31) : toI32 n = (n : Int) := by
  have h32 : n < 2 ^ 32 := lt_trans h (by norm_num)
  simp only [toI32, Nat.mod_eq_of_lt h32, if_pos h]

/-- Effect of the plane loop: when every processed index is below 3 it
succeeds, leaves every field but `planes`/`stride` unchanged, writes the
plane address and (cast) linesize at each processed index, and leaves the
remaining entries alone. -/
theorem setPlanesLoop_spec (buf : FrameBuffer) (l : List Nat) :
    ∀ img : AomImage, (∀ i ∈ l, i < 3) →
    ∃ img', setPlanesLoop buf l img = .ok img' ∧
      img'.fmt = img.fmt ∧ img'.w = img.w ∧ img'.h = img.h ∧
      img'.d_w = img.d_w ∧ img'.d_h = img.d_h ∧
      img'.bit_depth = img.bit_depth ∧ img'.bps = img.bps ∧
      img'.x_chroma_shift = img.x_chroma_shift ∧
      img'.y_chroma_shift = img.y_chroma_shift ∧
      (∀ j : Fin 3, j.1 ∈ l →
        img'.planes j = buf.planeAddr j.1 ∧
        img'.stride j = toI32 (buf.linesize j.1)) ∧
      (∀ j : Fin 3, j.1 ∉ l →
        img'.planes j = img.planes j ∧ img'.stride j = img.stride j) := by
  induction l with
  | nil =>
      intro img _
      exact ⟨img, rfl, rfl, rfl, rfl, rfl, rfl, rfl, rfl, rfl, rfl,
        fun j hj => absurd hj (List.not_mem_nil j.1),
        fun j _ => ⟨rfl, rfl⟩⟩
  | cons i rest ih =>
      intro img hl
      have hi : i < 3 := hl i (List.mem_cons_self i rest)
      obtain ⟨img', heq, hfmt, hw, hh, hdw, hdh, hbd, hbps, hxc, hyc, hmem, hnot⟩ :=
        ih { img with
              planes := Function.update img.planes ⟨i, hi⟩ (buf.planeAddr i),
              stride := Function.update img.stride ⟨i, hi⟩ (toI32 (buf.linesize i)) }
          (fun j hj => hl j (List.mem_cons_of_mem i hj))
      refine ⟨img', ?_, hfmt, hw, hh, hdw, hdh, hbd, hbps, hxc, hyc, ?_, ?_⟩
      · simp only [setPlanesLoop, dif_pos hi]
        exact heq
      · intro j hj
        by_cases hjr : j.1 ∈ rest
        · exact hmem j hjr
        · have hji : j.1 = i := by
            rcases List.mem_cons.mp hj with h | h
            · exact h
            · exact absurd h hjr
          have hje : j = ⟨i, hi⟩ := Fin.ext hji
          obtain ⟨hp, hs⟩ := hnot j hjr
          subst hje
          refine ⟨?_, ?_⟩
          · rw [hp]; exact Function.update_same _ _ _
          · rw [hs]; exact Function.update_same _ _ _
      · intro j hj
        have hjr : j.1 ∉ rest := fun h => hj (List.mem_cons_of_mem i h)
        have hji : j ≠ ⟨i, hi⟩ := by
          intro h
          exact hj (h ▸ List.mem_cons_self i rest)
        obtain ⟨hp, hs⟩ := hnot j hjr
        refine ⟨?_, ?_⟩
        · rw [hp]; exact Function.update_noteq hji _ _
        · rw [hs]; exact Function.update_noteq hji _ _

/-- C6: for a video frame (YUV420, plane count within the native
three-entry arrays, dimensions in `u32` range, linesizes in `i32` range),
`img_from_frame` produces an image whose width, height and display
dimensions equal the frame's, and whose `i`-th plane pointer and stride
are the frame's `i`-th plane address and linesize, for every
`i < count`. -/
theorem img_from_frame_marshals_video_frame (frame : Frame) (v : VideoInfo)
    (hk : frame.kind = .Video v) (hf : v.format = YUV420)
    (hc : frame.buf.count ≤ 3)
    (hwlt : v.width < 2 ^ 32) (hhlt : v.height < 2 ^ 32)
    (hslt : ∀ i, i < frame.buf.count → frame.buf.linesize i < 2 ^ 31) :
    ∃ img, img_from_frame frame = .ok img ∧
      img.w = v.width ∧ img.h = v.height ∧
      img.d_w = v.width ∧ img.d_h = v.height ∧
      ∀ i (hi : i < frame.buf.count),
        img.planes ⟨i, lt_of_lt_of_le hi hc⟩ = frame.buf.planeAddr i ∧
        img.stride ⟨i, lt_of_lt_of_le hi hc⟩ = (frame.buf.linesize i : Int) := by
  have hred : img_from_frame frame =
      setPlanesLoop frame.buf (List.range frame.buf.count)
        { fmt := AOM_IMG_FMT_I420, cp := 2, tc := 2, mc := 1,
          w := toU32 v.width, h := toU32 v.height,
          d_w := toU32 v.width, d_h := toU32 v.height,
          bit_depth := 8, bps := 12, x_chroma_shift := 1, y_chroma_shift := 1,
          planes := fun _ => 0, stride := fun _ => 0 } := by
    simp [img_from_frame, hk, map_formaton, hf, map_fmt_to_img, zeroedAomImage,
      YUV420]
  obtain ⟨img', heq, _, hw, hh, hdw, hdh, _, _, _, _, hmem, _⟩ :=
    setPlanesLoop_spec frame.buf (List.range frame.buf.count)
      { fmt := AOM_IMG_FMT_I420, cp := 2, tc := 2, mc := 1,
        w := toU32 v.width, h := toU32 v.height,
        d_w := toU32 v.width, d_h := toU32 v.height,
        bit_depth := 8, bps := 12, x_chroma_shift := 1, y_chroma_shift := 1,
        planes := fun _ => 0, stride := fun _ => 0 }
      (fun i hil => lt_of_lt_of_le (List.mem_range.mp hil) hc)
  refine ⟨img', hred.trans heq,
    hw.trans (Nat.mod_eq_of_lt hwlt), hh.trans (Nat.mod_eq_of_lt hhlt),
    hdw.trans (Nat.mod_eq_of_lt hwlt), hdh.trans (Nat.mod_eq_of_lt hhlt),
    fun i hi => ?_⟩
  obtain ⟨hp, hs⟩ := hmem ⟨i, lt_of_lt_of_le hi hc⟩ (List.mem_range.mpr hi)
  exact ⟨hp, hs.trans (toI32_eq_of_lt _ (hslt i hi))⟩

/-- C6 witness: `exFrame` (2×2 YUV420, three planes at addresses
100 + i with linesizes 10 + i). -/
theorem img_from_frame_marshals_video_frame_witness :
    ∃ img, img_from_frame exFrame = .ok img ∧
      img.w = 2 ∧ img.h = 2 ∧ img.d_w = 2 ∧ img.d_h = 2 ∧
      ∀ i (hi : i < exFrame.buf.count),
        img.planes ⟨i, lt_of_lt_of_le hi (by decide)⟩ =
          exFrame.buf.planeAddr i ∧
        img.stride ⟨i, lt_of_lt_of_le hi (by decide)⟩ =
          (exFrame.buf.linesize i : Int) :=
  img_from_frame_marshals_video_frame exFrame
    { width := 2, height := 2, format := YUV420 } rfl rfl (by decide)
    (by norm_num) (by norm_num) (fun i hi => by simp [exFrame] at hi ⊢; omega)

/-- C9: `img_from_frame` supports only YUV420 input.  A YUV420 video
frame (with its planes fitting the native arrays) yields an `I420` image
with bit depth 8, 12 bits per sample and chroma shifts 1 in both
dimensions; a video frame of any other pixel format panics
(`unimplemented!`). -/
theorem img_from_frame_only_yuv420 (frame : Frame) (v : VideoInfo)
    (hk : frame.kind = .Video v) :
    (v.format = YUV420 → frame.buf.count ≤ 3 →
      ∃ img, img_from_frame frame = .ok img ∧
        img.fmt = AOM_IMG_FMT_I420 ∧ img.bit_depth = 8 ∧ img.bps = 12 ∧
        img.x_chroma_shift = 1 ∧ img.y_chroma_shift = 1) ∧
    (v.format ≠ YUV420 → img_from_frame frame = .error "not implemented") := by
  refine ⟨fun hf hc => ?_, fun hne => ?_⟩
  · have hred : img_from_frame frame =
        setPlanesLoop frame.buf (List.range frame.buf.count)
          { fmt := AOM_IMG_FMT_I420, cp := 2, tc := 2, mc := 1,
            w := toU32 v.width, h := toU32 v.height,
            d_w := toU32 v.width, d_h := toU32 v.height,
            bit_depth := 8, bps := 12, x_chroma_shift := 1, y_chroma_shift := 1,
            planes := fun _ => 0, stride := fun _ => 0 } := by
      simp [img_from_frame, hk, map_formaton, hf, map_fmt_to_img,
        zeroedAomImage, YUV420]
    obtain ⟨img', heq, hfmt, _, _, _, _, hbd, hbps, hxc, hyc, _, _⟩ :=
      setPlanesLoop_spec frame.buf (List.range frame.buf.count)
        { fmt := AOM_IMG_FMT_I420, cp := 2, tc := 2, mc := 1,
          w := toU32 v.width, h := toU32 v.height,
          d_w := toU32 v.width, d_h := toU32 v.height,
          bit_depth := 8, bps := 12, x_chroma_shift := 1, y_chroma_shift := 1,
          planes := fun _ => 0, stride := fun _ => 0 }
        (fun i hil => lt_of_lt_of_le (List.mem_range.mp hil) hc)
    exact ⟨img', hred.trans heq, hfmt, hbd, hbps, hxc, hyc⟩
  · simp [img_from_frame, hk, map_formaton, hne]

/-- A video frame whose pixel format is not YUV420. -/
def exFrameBadFmt : Frame :=
  { exFrame with
    kind := .Video { width := 2, height := 2,
                     format := { tag := 444, primaries := 2, xfer := 2,
                                 matrix := 1 } } }

/-- C9 witness: `exFrame` (YUV420) marshals to an I420 image; the same
frame with a non-YUV420 format panics. -/
theorem img_from_frame_only_yuv420_witness :
    (∃ img, img_from_frame exFrame = .ok img ∧
      img.fmt = AOM_IMG_FMT_I420 ∧ img.bit_depth = 8 ∧ img.bps = 12 ∧
      img.x_chroma_shift = 1 ∧ img.y_chroma_shift = 1) ∧
    img_from_frame exFrameBadFmt = .error "not implemented" :=
  ⟨(img_from_frame_only_yuv420 exFrame
      { width := 2, height := 2, format := YUV420 } rfl).1 rfl (by decide),
   (img_from_frame_only_yuv420 exFrameBadFmt
      { width := 2, height := 2,
        format := { tag := 444, primaries := 2, xfer := 2, matrix := 1 } }
      rfl).2 (by decide)⟩

/-- C4: each configuration setter of `AV1EncoderConfig` returns the same
configuration with exactly its own field of the underlying native record
set to the given value and every other field unchanged (the returned
value is the whole updated configuration, so calls chain). -/
theorem config_setters_update_exactly_their_own_field :
    (∀ (c : AV1EncoderConfig) (v : Nat),
      c.g_usage v = { enc_cfg := { c.enc_cfg with g_usage := v } }) ∧
    (∀ (c : AV1EncoderConfig) (v : Nat),
      c.g_threads v = { enc_cfg := { c.enc_cfg with g_threads := v } }) ∧
    (∀ (c : AV1EncoderConfig) (v : Nat),
      c.g_profile v = { enc_cfg := { c.enc_cfg with g_profile := v } }) ∧
    (∀ (c : AV1EncoderConfig) (v : Nat),
      c.g_w v = { enc_cfg := { c.enc_cfg with g_w := v } }) ∧
    (∀ (c : AV1EncoderConfig) (v : Nat),
      c.g_h v = { enc_cfg := { c.enc_cfg with g_h := v } }) ∧
    (∀ (c : AV1EncoderConfig) (v : Nat),
      c.g_limit v = { enc_cfg := { c.enc_cfg with g_limit := v } }) ∧
    (∀ (c : AV1EncoderConfig) (v : Nat),
      c.g_forced_max_frame_width v = { enc_cfg := { c.enc_cfg with g_forced_max_frame_width := v } }) ∧
    (∀ (c : AV1EncoderConfig) (v : Nat),
      c.g_forced_max_frame_height v = { enc_cfg := { c.enc_cfg with g_forced_max_frame_height := v } }) ∧
    (∀ (c : AV1EncoderConfig) (v : Nat),
      c.g_bit_depth v = { enc_cfg := { c.enc_cfg with g_bit_depth := v } }) ∧
    (∀ (c : AV1EncoderConfig) (v : Nat),
      c.g_input_bit_depth v = { enc_cfg := { c.enc_cfg with g_input_bit_depth := v } }) ∧
    (∀ (c : AV1EncoderConfig) (v : AomRational),
      c.g_timebase v = { enc_cfg := { c.enc_cfg with g_timebase := v } }) ∧
    (∀ (c : AV1EncoderConfig) (v : Nat),
      c.g_error_resilient v = { enc_cfg := { c.enc_cfg with g_error_resilient := v } }) ∧
    (∀ (c : AV1EncoderConfig) (v : Nat),
      c.g_pass v = { enc_cfg := { c.enc_cfg with g_pass := v } }) ∧
    (∀ (c : AV1EncoderConfig) (v : Nat),
      c.g_lag_in_frames v = { enc_cfg := { c.enc_cfg with g_lag_in_frames := v } }) ∧
    (∀ (c : AV1EncoderConfig) (v : Nat),
      c.rc_dropframe_thresh v = { enc_cfg := { c.enc_cfg with rc_dropframe_thresh := v } }) ∧
    (∀ (c : AV1EncoderConfig) (v : Nat),
      c.rc_resize_mode v = { enc_cfg := { c.enc_cfg with rc_resize_mode := v } }) ∧
    (∀ (c : AV1EncoderConfig) (v : Nat),
      c.rc_resize_denominator v = { enc_cfg := { c.enc_cfg with rc_resize_denominator := v } }) ∧
    (∀ (c : AV1EncoderConfig) (v : Nat),
      c.rc_resize_kf_denominator v = { enc_cfg := { c.enc_cfg with rc_resize_kf_denominator := v } }) ∧
    (∀ (c : AV1EncoderConfig) (v : Nat),
      c.rc_superres_mode v = { enc_cfg := { c.enc_cfg with rc_superres_mode := v } }) ∧
    (∀ (c : AV1EncoderConfig) (v : Nat),
      c.rc_superres_denominator v = { enc_cfg := { c.enc_cfg with rc_superres_denominator := v } }) ∧
    (∀ (c : AV1EncoderConfig) (v : Nat),
      c.rc_superres_kf_denominator v = { enc_cfg := { c.enc_cfg with rc_superres_kf_denominator := v } }) ∧
    (∀ (c : AV1EncoderConfig) (v : Nat),
      c.rc_superres_qthresh v = { enc_cfg := { c.enc_cfg with rc_superres_qthresh := v } }) ∧
    (∀ (c : AV1EncoderConfig) (v : Nat),
      c.rc_superres_kf_qthresh v = { enc_cfg := { c.enc_cfg with rc_superres_kf_qthresh := v } }) ∧
    (∀ (c : AV1EncoderConfig) (v : Nat),
      c.rc_end_usage v = { enc_cfg := { c.enc_cfg with rc_end_usage := v } }) ∧
    (∀ (c : AV1EncoderConfig) (v : AomFixedBuf),
      c.rc_twopass_stats_in v = { enc_cfg := { c.enc_cfg with rc_twopass_stats_in := v } }) ∧
    (∀ (c : AV1EncoderConfig) (v : AomFixedBuf),
      c.rc_firstpass_mb_stats_in v = { enc_cfg := { c.enc_cfg with rc_firstpass_mb_stats_in := v } }) ∧
    (∀ (c : AV1EncoderConfig) (v : Nat),
      c.rc_target_bitrate v = { enc_cfg := { c.enc_cfg with rc_target_bitrate := v } }) ∧
    (∀ (c : AV1EncoderConfig) (v : Nat),
      c.rc_min_quantizer v = { enc_cfg := { c.enc_cfg with rc_min_quantizer := v } }) ∧
    (∀ (c : AV1EncoderConfig) (v : Nat),
      c.rc_max_quantizer v = { enc_cfg := { c.enc_cfg with rc_max_quantizer := v } }) ∧
    (∀ (c : AV1EncoderConfig) (v : Nat),
      c.rc_undershoot_pct v = { enc_cfg := { c.enc_cfg with rc_undershoot_pct := v } }) ∧
    (∀ (c : AV1EncoderConfig) (v : Nat),
      c.rc_overshoot_pct v = { enc_cfg := { c.enc_cfg with rc_overshoot_pct := v } }) ∧
    (∀ (c : AV1EncoderConfig) (v : Nat),
      c.rc_buf_sz v = { enc_cfg := { c.enc_cfg with rc_buf_sz := v } }) ∧
    (∀ (c : AV1EncoderConfig) (v : Nat),
      c.rc_buf_initial_sz v = { enc_cfg := { c.enc_cfg with rc_buf_initial_sz := v } }) ∧
    (∀ (c : AV1EncoderConfig) (v : Nat),
      c.rc_buf_optimal_sz v = { enc_cfg := { c.enc_cfg with rc_buf_optimal_sz := v } }) ∧
    (∀ (c : AV1EncoderConfig) (v : Nat),
      c.rc_2pass_vbr_bias_pct v = { enc_cfg := { c.enc_cfg with rc_2pass_vbr_bias_pct := v } }) ∧
    (∀ (c : AV1EncoderConfig) (v : Nat),
      c.rc_2pass_vbr_minsection_pct v = { enc_cfg := { c.enc_cfg with rc_2pass_vbr_minsection_pct := v } }) ∧
    (∀ (c : AV1EncoderConfig) (v : Nat),
      c.rc_2pass_vbr_maxsection_pct v = { enc_cfg := { c.enc_cfg with rc_2pass_vbr_maxsection_pct := v } }) ∧
    (∀ (c : AV1EncoderConfig) (v : Int),
      c.fwd_kf_enabled v = { enc_cfg := { c.enc_cfg with fwd_kf_enabled := v } }) ∧
    (∀ (c : AV1EncoderConfig) (v : Nat),
      c.kf_mode v = { enc_cfg := { c.enc_cfg with kf_mode := v } }) ∧
    (∀ (c : AV1EncoderConfig) (v : Nat),
      c.kf_min_dist v = { enc_cfg := { c.enc_cfg with kf_min_dist := v } }) ∧
    (∀ (c : AV1EncoderConfig) (v : Nat),
      c.kf_max_dist v = { enc_cfg := { c.enc_cfg with kf_max_dist := v } }) ∧
    (∀ (c : AV1EncoderConfig) (v : Nat),
      c.sframe_dist v = { enc_cfg := { c.enc_cfg with sframe_dist := v } }) ∧
    (∀ (c : AV1EncoderConfig) (v : Nat),
      c.sframe_mode v = { enc_cfg := { c.enc_cfg with sframe_mode := v } }) ∧
    (∀ (c : AV1EncoderConfig) (v : Nat),
      c.large_scale_tile v = { enc_cfg := { c.enc_cfg with large_scale_tile := v } }) ∧
    (∀ (c : AV1EncoderConfig) (v : Nat),
      c.monochrome v = { enc_cfg := { c.enc_cfg with monochrome := v } }) ∧
    (∀ (c : AV1EncoderConfig) (v : Nat),
      c.full_still_picture_hdr v = { enc_cfg := { c.enc_cfg with full_still_picture_hdr := v } }) ∧
    (∀ (c : AV1EncoderConfig) (v : Nat),
      c.save_as_annexb v = { enc_cfg := { c.enc_cfg with save_as_annexb := v } }) ∧
    (∀ (c : AV1EncoderConfig) (v : Int),
      c.tile_width_count v = { enc_cfg := { c.enc_cfg with tile_width_count := v } }) ∧
    (∀ (c : AV1EncoderConfig) (v : Int),
      c.tile_height_count v = { enc_cfg := { c.enc_cfg with tile_height_count := v } }) ∧
    (∀ (c : AV1EncoderConfig) (v : Fin 64 → Int),
      c.tile_widths v = { enc_cfg := { c.enc_cfg with tile_widths := v } }) ∧
    (∀ (c : AV1EncoderConfig) (v : Fin 64 → Int),
      c.tile_heights v = { enc_cfg := { c.enc_cfg with tile_heights := v } }) ∧
    (∀ (c : AV1EncoderConfig) (v : Nat),
      c.use_fixed_qp_offsets v = { enc_cfg := { c.enc_cfg with use_fixed_qp_offsets := v } }) ∧
    (∀ (c : AV1EncoderConfig) (v : Fin 5 → Int),
      c.fixed_qp_offsets v = { enc_cfg := { c.enc_cfg with fixed_qp_offsets := v } }) ∧
    (∀ (c : AV1EncoderConfig) (v : CfgOptions),
      c.encoder_cfg v = { enc_cfg := { c.enc_cfg with encoder_cfg := v } })
  := 
⟨fun _ _ => rfl, fun _ _ => rfl, fun _ _ => rfl, fun _ _ => rfl, fun _ _ => rfl, fun _ _ => rfl, fun _ _ => rfl, fun _ _ => rfl, fun _ _ => rfl, fun _ _ => rfl, fun _ _ => rfl, fun _ _ => rfl, fun _ _ => rfl, fun _ _ => rfl, fun _ _ => rfl, fun _ _ => rfl, fun _ _ => rfl, fun _ _ => rfl, fun _ _ => rfl, fun _ _ => rfl, fun _ _ => rfl, fun _ _ => rfl, fun _ _ => rfl, fun _ _ => rfl, fun _ _ => rfl, fun _ _ => rfl, fun _ _ => rfl, fun _ _ => rfl, fun _ _ => rfl, fun _ _ => rfl, fun _ _ => rfl, fun _ _ => rfl, fun _ _ => rfl, fun _ _ => rfl, fun _ _ => rfl, fun _ _ => rfl, fun _ _ => rfl, fun _ _ => rfl, fun _ _ => rfl, fun _ _ => rfl, fun _ _ => rfl, fun _ _ => rfl, fun _ _ => rfl, fun _ _ => rfl, fun _ _ => rfl, fun _ _ => rfl, fun _ _ => rfl, fun _ _ => rfl, fun _ _ => rfl, fun _ _ => rfl, fun _ _ => rfl, fun _ _ => rfl, fun _ _ => rfl, fun _ _ => rfl⟩

end AomRs
